import Mathlib

/-!
Verification of the non-linguistic vocal-command music-control pipeline.

The development shallowly embeds the Python sources:
  - music_player.py        : `MusicPlayer` state, its playback methods, the
                             confidence gate and dispatch in `main`
  - command_recognition_music.py : audio recording, normalization, MFCC-based
                             feature extraction, `predict_command`
  - feature_extraction.py  : the training-time extraction pipeline

Amplitudes, volumes and probabilities are modelled as rationals; operations
that can raise or produce non-finite values (division by zero, mean of an
empty axis) are modelled with `Option`.
-/

namespace VocalCommand

/-- The six command labels, in model order: `commands` in
command_recognition_music.py line 18. -/
inductive Command where
  | shush
  | click
  | whistle
  | pop
  | hiss
  | hum
  deriving DecidableEq, Repr

/-- The playback-controller methods of `MusicPlayer` in music_player.py. -/
inductive Method where
  | play
  | pause
  | stop
  | next_track
  | previous_track
  | volume_up
  | volume_down
  deriving DecidableEq, Repr

/-- Mutable state of `MusicPlayer` (music_player.py lines 8-16).  The pygame
mixer is an external effect and carries no state the claims mention. -/
structure MusicPlayer where
  current_track_index : Int
  track_list : List String
  volume : ℚ
  is_playing : Bool
  is_paused : Bool
  deriving DecidableEq, Repr

/-- `MusicPlayer.__init__`: index 0, volume 0.7, not playing, not paused;
`track_list` is whatever `load_music_library` found on disk. -/
def initState (tracks : List String) : MusicPlayer :=
  { current_track_index := 0
    track_list := tracks
    volume := 7/10
    is_playing := false
    is_paused := false }

/-- `MusicPlayer.play` (lines 44-66): no-op on an empty track list; resuming
from pause clears `is_paused`; both branches end with `is_playing = True`.
Loading and starting the pygame track is an external effect. -/
def MusicPlayer.play (st : MusicPlayer) : MusicPlayer :=
  if st.track_list = [] then st
  else if st.is_paused then { st with is_paused := false, is_playing := true }
  else { st with is_playing := true }

/-- `MusicPlayer.pause` (lines 68-74): only pauses when currently playing and
not already paused. -/
def MusicPlayer.pause (st : MusicPlayer) : MusicPlayer :=
  if st.is_playing && !st.is_paused then
    { st with is_paused := true, is_playing := false }
  else st

/-- `MusicPlayer.stop` (lines 76-81). -/
def MusicPlayer.stop (st : MusicPlayer) : MusicPlayer :=
  { st with is_playing := false, is_paused := false }

/-- `MusicPlayer.next_track` (lines 83-91): advance the index modulo the
track-list length, then `stop()` and `play()`.  Python's `%` on ints agrees
with `Int.emod` for a positive divisor. -/
def MusicPlayer.next_track (st : MusicPlayer) : MusicPlayer :=
  if st.track_list = [] then st
  else
    MusicPlayer.play (MusicPlayer.stop
      { st with current_track_index :=
          (st.current_track_index + 1) % (st.track_list.length : Int) })

/-- `MusicPlayer.previous_track` (lines 93-101). -/
def MusicPlayer.previous_track (st : MusicPlayer) : MusicPlayer :=
  if st.track_list = [] then st
  else
    MusicPlayer.play (MusicPlayer.stop
      { st with current_track_index :=
          (st.current_track_index - 1) % (st.track_list.length : Int) })

/-- `MusicPlayer.volume_up` (lines 103-107). -/
def MusicPlayer.volume_up (st : MusicPlayer) : MusicPlayer :=
  { st with volume := min 1 (st.volume + 1/10) }

/-- `MusicPlayer.volume_down` (lines 109-113). -/
def MusicPlayer.volume_down (st : MusicPlayer) : MusicPlayer :=
  { st with volume := max 0 (st.volume - 1/10) }

/-- Invoke one controller method. -/
def applyMethod (st : MusicPlayer) : Method → MusicPlayer
  | .play => st.play
  | .pause => st.pause
  | .stop => st.stop
  | .next_track => st.next_track
  | .previous_track => st.previous_track
  | .volume_up => st.volume_up
  | .volume_down => st.volume_down

/-- The `sound_mapping` dictionary in `main` of music_player.py
(lines 145-176): each label is bound to exactly one controller method. -/
def sound_mapping : Command → Method
  | .shush => .pause
  | .hum => .play
  | .hiss => .previous_track
  | .click => .volume_down
  | .pop => .next_track
  | .whistle => .volume_up

/-- `confidence_threshold = 0.4` in `main` (music_player.py line 238). -/
def confidence_threshold : ℚ := 4/10

/-- The confidence gate of `main` (music_player.py line 240): dispatch the
predicted label iff `confidence > confidence_threshold`, strictly. -/
def commandGate (confidence : ℚ) (command : Command) : Option Command :=
  if confidence > confidence_threshold then some command else none

/-- One gate-and-dispatch step of the recognition cycle (music_player.py
lines 240-252): on acceptance the mapped method is invoked exactly once (every
`Command` is a key of `sound_mapping`, so the membership test on line 244
always succeeds); on rejection the player is untouched.  The second component
records the controller methods invoked by the dispatcher. -/
def runCycle (st : MusicPlayer) (command : Command) (confidence : ℚ) :
    MusicPlayer × List Method :=
  match commandGate confidence command with
  | some c => (applyMethod st (sound_mapping c), [sound_mapping c])
  | none => (st, [])

/-- Player states reachable from startup by any sequence of controller-method
invocations (voice-dispatched or manual keyboard commands both funnel through
the same methods). -/
inductive Reachable : MusicPlayer → Prop where
  | init (tracks : List String) : Reachable (initState tracks)
  | step {st : MusicPlayer} (m : Method) : Reachable st → Reachable (applyMethod st m)

/-- `self.sample_rate = 22050` (command_recognition_music.py line 19). -/
def sample_rate : Nat := 22050

/-- `self.duration = 2` seconds (command_recognition_music.py line 20). -/
def duration : Nat := 2

/-- `self.chunk_size = 1024` (command_recognition_music.py line 21). -/
def chunk_size : Nat := 1024

/-- `VocalCommandRecognizer.record_audio` (lines 37-57): the callback appends
each delivered block to `audio`, and after the sleep the blocks are
concatenated and flattened (`np.concatenate(audio, axis=0).flatten()`) and
returned as-is.  The argument is the list of blocks the device delivered. -/
def record_audio (chunks : List (List ℚ)) : List ℚ :=
  chunks.foldr (fun c acc => c ++ acc) []

/-- `np.max(np.abs(audio))`: the peak absolute amplitude of a window (0 for
the empty window, on which numpy's `max` would instead raise; the claims only
concern non-empty windows). -/
def peakAbs (audio : List ℚ) : ℚ :=
  (audio.map (fun a => |a|)).foldr max 0

/-- The normalization step shared by command_recognition_music.py lines 62-63
and feature_extraction.py lines 25-28: divide by the peak absolute amplitude
when it is positive, otherwise leave the window untouched. -/
def normalizePeak (audio : List ℚ) : List ℚ :=
  if peakAbs audio > 0 then audio.map (fun a => a / peakAbs audio) else audio

/-- Division with the zero-divisor case tracked explicitly, modelling the
floating-point hazard the normalization guard exists to avoid. -/
def checkedDiv (x y : ℚ) : Option ℚ :=
  if y = 0 then none else some (x / y)

/-- Apply a fallible operation to every element, failing if any application
fails (the `Option` analogue of numpy broadcasting over a window). -/
def mapChecked {α β : Type} (f : α → Option β) : List α → Option (List β)
  | [] => some []
  | a :: as =>
    match f a, mapChecked f as with
    | some b, some bs => some (b :: bs)
    | _, _ => none

/-- The normalization step with its division tracked: the branch taken and the
values computed are exactly those of `normalizePeak`. -/
def normalizePeakChecked (audio : List ℚ) : Option (List ℚ) :=
  if peakAbs audio > 0 then mapChecked (fun a => checkedDiv a (peakAbs audio)) audio
  else some audio

/-- `np.mean` over one matrix row, with the empty-axis case (a 0/0 NaN in
numpy) tracked explicitly. -/
def meanList (l : List ℚ) : Option ℚ :=
  if l.length = 0 then none else some (l.sum / l.length)

/-- `n_mfcc=13` (command_recognition_music.py line 66). -/
def n_mfcc : Nat := 13

/-- librosa's default `hop_length=512`, used by the `librosa.feature.mfcc`
call on line 66. -/
def hop_length : Nat := 512

/-- Number of analysis frames `librosa.feature.mfcc` produces for a signal of
the given length with centered framing: `1 + len / hop_length`; at least one
frame for every window. -/
def nFrames (len : Nat) : Nat := 1 + len / hop_length

/-- `VocalCommandRecognizer.extract_features` (lines 59-69): normalize by peak
amplitude (guarded), compute the 13 × nFrames MFCC matrix, and average each
coefficient across frames.  `frameCoeff normalized c t` stands for librosa's
cepstral value of coefficient `c` at frame `t` of the normalized signal — an
opaque pure numeric transform to this code.  The final `reshape(1, -1)` only
changes the array shape, not the 13 entries. -/
def extract_features (frameCoeff : List ℚ → Nat → Nat → ℚ) (audio : List ℚ) :
    Option (List ℚ) :=
  match normalizePeakChecked audio with
  | none => none
  | some normalized =>
    mapChecked
      (fun c => meanList
        ((List.range (nFrames normalized.length)).map (frameCoeff normalized c)))
      (List.range n_mfcc)

/-- One pre-classification processing step together with its numeric
parameters, for comparing the two extraction pipelines structurally. -/
inductive PipelineStep where
  | loadResample (sr : Nat) (durationMs : Nat)
  | trimSilence (top_db : Nat)
  | normalizePeakStep
  | mfccStep (sr nMfcc nFft hop nMels : Nat)
  | meanAcrossFrames
  deriving DecidableEq, Repr

/-- The training-time pipeline of `extract_features` in feature_extraction.py
(lines 12-48): load at 22050 Hz truncated to 2.0 s, trim silence at
`top_db=25` (with the under-0.3 s fallback), peak-normalize, MFCC with
`n_mfcc=13, n_fft=2048, hop_length=512, n_mels=128`, then average each
coefficient across frames. -/
def trainingSteps : List PipelineStep :=
  [PipelineStep.loadResample 22050 2000,
   PipelineStep.trimSilence 25,
   PipelineStep.normalizePeakStep,
   PipelineStep.mfccStep 22050 13 2048 512 128,
   PipelineStep.meanAcrossFrames]

/-- The inference-time pipeline of `VocalCommandRecognizer.extract_features`
(command_recognition_music.py lines 59-69): peak-normalize, MFCC at
`sr=22050, n_mfcc=13` with librosa defaults `n_fft=2048, hop_length=512,
n_mels=128`, then average across frames.  There is no load/resample step and
no silence-trimming step. -/
def inferenceSteps : List PipelineStep :=
  [PipelineStep.normalizePeakStep,
   PipelineStep.mfccStep 22050 13 2048 512 128,
   PipelineStep.meanAcrossFrames]

/-- Selects the spectral-cepstral transform step, the one carrying the frame
size, hop size, mel count and sample rate. -/
def isMfccStep : PipelineStep → Bool
  | .mfccStep _ _ _ _ _ => true
  | _ => false

/-- The under-0.3 s fallback around `librosa.effects.trim`
(feature_extraction.py lines 17-21): if trimming leaves fewer than
`22050 * 0.3 = 6615` samples, the untrimmed signal is used instead. -/
def trimWithFallback (trim : List ℚ → List ℚ) (y : List ℚ) : List ℚ :=
  if (trim y).length < 6615 then y else trim y

/-- Training-time extraction applied to already-loaded samples `y`: trim with
fallback, peak-normalize, then the MFCC-and-average transform `mfccMean` — an
opaque pure numeric function of the processed signal, the same function in
both pipelines because its parameters agree. -/
def trainingExtract (mfccMean : List ℚ → List ℚ) (trim : List ℚ → List ℚ)
    (y : List ℚ) : List ℚ :=
  mfccMean (normalizePeak (trimWithFallback trim y))

/-- Inference-time extraction applied to recorded samples `y`: peak-normalize,
then the same MFCC-and-average transform. -/
def inferenceExtract (mfccMean : List ℚ → List ℚ) (y : List ℚ) : List ℚ :=
  mfccMean (normalizePeak y)

/-- The loaded classifier artifact: sklearn's `predict` and `predict_proba`
over a 13-element feature vector, class indices in `commands` order. -/
structure Model where
  predict : List ℚ → Fin 6
  predict_proba : List ℚ → Fin 6 → ℚ

/-- `VocalCommandRecognizer.predict_command` (lines 71-77): returns the
predicted index, the confidence `probabilities[prediction]` — the distribution
entry at the predicted index — and the full distribution. -/
def predict_command (model : Model) (features : List ℚ) :
    Fin 6 × ℚ × (Fin 6 → ℚ) :=
  (model.predict features,
   model.predict_proba features (model.predict features),
   model.predict_proba features)

/-- Modelled from the spec: the maximum value in the returned probability
distribution over the six labels (the code itself never computes this). -/
def distMax (probs : Fin 6 → ℚ) : ℚ :=
  max (probs 0)
    (max (probs 1) (max (probs 2) (max (probs 3) (max (probs 4) (probs 5)))))

/-- A model whose `predict` does not return the argmax of its
`predict_proba`: sklearn's SVC with Platt-scaled probabilities does not
guarantee the two agree, and `predict_command` nowhere enforces it. -/
def skewModel : Model :=
  { predict := fun _ => 0
    predict_proba := fun _ i => if i = 1 then 7/10 else if i = 0 then 3/10 else 0 }

/-- A model whose prediction attains the maximum of its distribution, carrying
the Scenario C distribution over the six labels (pop at index 3 gets 0.6). -/
def scenarioCModel : Model :=
  { predict := fun _ => 3
    predict_proba := fun _ i =>
      if i = 0 then 1/10 else if i = 1 then 1/10 else if i = 2 then 1/10
      else if i = 3 then 6/10 else 1/20 }

/-- The recognizer object after `VocalCommandRecognizer.__init__`
(command_recognition_music.py lines 9-21): whether `self.model` was assigned. -/
structure Recognizer where
  modelLoaded : Bool
  deriving DecidableEq, Repr

/-- Outcome of running `__init__`: a Python constructor that executes `return`
early still yields a constructed object; only an uncaught exception
propagates to the caller. -/
inductive InitResult where
  | constructed (r : Recognizer)
  | raised
  deriving DecidableEq, Repr

/-- `VocalCommandRecognizer.__init__` (lines 9-21): a missing model file
prints two messages and returns early — the object is still constructed and
`self.model` is never assigned; on an existing but unloadable file
`joblib.load` raises. -/
def recognizerInit (fileExists : Bool) (loadRaises : Bool) : InitResult :=
  if !fileExists then InitResult.constructed { modelLoaded := false }
  else if loadRaises then InitResult.raised
  else InitResult.constructed { modelLoaded := true }

/-- Whether `main` reaches its interactive loop, and with what model state. -/
structure StartupOutcome where
  entersLoop : Bool
  modelLoaded : Bool
  deriving DecidableEq, Repr

/-- `main`'s startup (music_player.py lines 136-142): recognizer construction
is wrapped in try/except, and only a raised exception makes `main` return
before the interactive loop of line 189 begins. -/
def mainStartup (fileExists loadRaises : Bool) : StartupOutcome :=
  match recognizerInit fileExists loadRaises with
  | InitResult.raised => { entersLoop := false, modelLoaded := false }
  | InitResult.constructed r => { entersLoop := true, modelLoaded := r.modelLoaded }

end VocalCommand

namespace VocalCommand

lemma record_audio_length (chunks : List (List ℚ)) :
    (record_audio chunks).length = (chunks.map List.length).sum := by
  induction chunks with
  | nil => rfl
  | cons c cs ih => simp [record_audio, List.length_append] at ih ⊢; omega

lemma peakAbs_nonneg (audio : List ℚ) : 0 ≤ peakAbs audio := by
  induction audio with
  | nil => exact le_refl 0
  | cons a as ih => exact le_trans ih (le_max_right _ _)

lemma peakAbs_cons (a : ℚ) (as : List ℚ) :
    peakAbs (a :: as) = max |a| (peakAbs as) := rfl

lemma peakAbs_map_div (audio : List ℚ) (m : ℚ) (hm : 0 < m) :
    peakAbs (audio.map (fun a => a / m)) = peakAbs audio / m := by
  induction audio with
  | nil => simp [peakAbs]
  | cons a as ih =>
    rw [List.map_cons, peakAbs_cons, peakAbs_cons, ih, abs_div, abs_of_pos hm,
      div_eq_mul_inv, div_eq_mul_inv, div_eq_mul_inv,
      max_mul_of_nonneg _ _ (le_of_lt (inv_pos.mpr hm))]

lemma peakAbs_eq_zero_of_allZero {audio : List ℚ}
    (h : ∀ a ∈ audio, a = 0) : peakAbs audio = 0 := by
  induction audio with
  | nil => rfl
  | cons a as ih =>
    rw [peakAbs_cons, h a (List.mem_cons_self a as), abs_zero,
      ih (fun b hb => h b (List.mem_cons_of_mem a hb)), max_self]

lemma mapChecked_eq_map {α β : Type} (f : α → Option β) (g : α → β)
    (l : List α) (h : ∀ a ∈ l, f a = some (g a)) :
    mapChecked f l = some (l.map g) := by
  induction l with
  | nil => rfl
  | cons a as ih =>
    rw [mapChecked, h a (List.mem_cons_self a as),
      ih (fun b hb => h b (List.mem_cons_of_mem a hb)), List.map_cons]

lemma normalizePeakChecked_eq (audio : List ℚ) :
    normalizePeakChecked audio = some (normalizePeak audio) := by
  unfold normalizePeakChecked normalizePeak
  split
  · next hpos =>
    exact mapChecked_eq_map _ _ audio
      (fun a _ => by rw [checkedDiv, if_neg (ne_of_gt hpos)])
  · rfl

lemma mapChecked_length {α β : Type} (f : α → Option β) (l : List α)
    (h : ∀ a ∈ l, ∃ b, f a = some b) :
    ∃ bs, mapChecked f l = some bs ∧ bs.length = l.length := by
  induction l with
  | nil => exact ⟨[], rfl, rfl⟩
  | cons a as ih =>
    obtain ⟨b, hb⟩ := h a (List.mem_cons_self a as)
    obtain ⟨bs, hbs, hlen⟩ := ih (fun x hx => h x (List.mem_cons_of_mem a hx))
    exact ⟨b :: bs, by rw [mapChecked, hb, hbs], by simp [hlen]⟩

lemma le_distMax (probs : Fin 6 → ℚ) (k : Fin 6) : probs k ≤ distMax probs := by
  fin_cases k <;> simp [distMax, le_max_iff]

lemma distMax_le (probs : Fin 6 → ℚ) (c : ℚ) (h : ∀ i, probs i ≤ c) :
    distMax probs ≤ c := by
  simp only [distMax, max_le_iff]
  exact ⟨h 0, h 1, h 2, h 3, h 4, h 5⟩

lemma play_volume (st : MusicPlayer) : st.play.volume = st.volume := by
  unfold MusicPlayer.play
  split
  · rfl
  · split <;> rfl

lemma pause_volume (st : MusicPlayer) : st.pause.volume = st.volume := by
  unfold MusicPlayer.pause
  split <;> rfl

lemma stop_volume (st : MusicPlayer) : st.stop.volume = st.volume := rfl

lemma next_track_volume (st : MusicPlayer) : st.next_track.volume = st.volume := by
  unfold MusicPlayer.next_track
  split
  · rfl
  · rw [play_volume, stop_volume]

lemma previous_track_volume (st : MusicPlayer) :
    st.previous_track.volume = st.volume := by
  unfold MusicPlayer.previous_track
  split
  · rfl
  · rw [play_volume, stop_volume]

lemma volume_bounds {st : MusicPlayer} (h : Reachable st) :
    0 ≤ st.volume ∧ st.volume ≤ 1 := by
  induction h with
  | init tracks => constructor <;> norm_num [initState]
  | step m _ ih =>
    obtain ⟨h0, h1⟩ := ih
    cases m with
    | play => rw [applyMethod, play_volume]; exact ⟨h0, h1⟩
    | pause => rw [applyMethod, pause_volume]; exact ⟨h0, h1⟩
    | stop => rw [applyMethod, stop_volume]; exact ⟨h0, h1⟩
    | next_track => rw [applyMethod, next_track_volume]; exact ⟨h0, h1⟩
    | previous_track => rw [applyMethod, previous_track_volume]; exact ⟨h0, h1⟩
    | volume_up =>
      refine ⟨?_, ?_⟩
      · simp only [applyMethod, MusicPlayer.volume_up, le_min_iff]
        constructor <;> linarith
      · exact min_le_left _ _
    | volume_down =>
      refine ⟨?_, ?_⟩
      · exact le_max_left _ _
      · simp only [applyMethod, MusicPlayer.volume_down, max_le_iff]
        constructor <;> linarith

lemma play_index (st : MusicPlayer) :
    st.play.current_track_index = st.current_track_index := by
  unfold MusicPlayer.play
  split
  · rfl
  · split <;> rfl

lemma stop_index (st : MusicPlayer) :
    st.stop.current_track_index = st.current_track_index := rfl

/-- Claim C2: the command gate is strict greater-than with default threshold
0.4: confidence above the threshold returns the predicted label, confidence at
or below the threshold returns nothing, and threshold plus any positive ε
returns the label. -/
theorem C2_gate_strict (confidence : ℚ) (command : Command) :
    (confidence > confidence_threshold →
      commandGate confidence command = some command)
  ∧ (confidence ≤ confidence_threshold → commandGate confidence command = none)
  ∧ (∀ ε : ℚ, 0 < ε →
      commandGate (confidence_threshold + ε) command = some command) := by
  refine ⟨fun h => ?_, fun h => ?_, fun ε hε => ?_⟩
  · simp [commandGate, h]
  · simp [commandGate, not_lt.mpr h]
  · simp [commandGate]
    linarith

theorem C2_gate_strict_witness :
    commandGate (1/2) Command.pop = some Command.pop
  ∧ commandGate confidence_threshold Command.pop = none
  ∧ commandGate (confidence_threshold + 1/100) Command.pop = some Command.pop :=
  ⟨(C2_gate_strict (1/2) Command.pop).1 (by norm_num [confidence_threshold]),
   (C2_gate_strict confidence_threshold Command.pop).2.1 le_rfl,
   (C2_gate_strict (confidence_threshold + 1/100) Command.pop).2.2 (1/100) (by norm_num)⟩

/-- Claim C6: when the gate rejects (confidence at or below the threshold) the
cycle invokes no controller method and leaves the player state unchanged; when
the gate accepts, exactly one controller method is invoked. -/
theorem C6_frame (st : MusicPlayer) (command : Command) (confidence : ℚ) :
    (confidence ≤ confidence_threshold →
      runCycle st command confidence = (st, []))
  ∧ (confidence > confidence_threshold →
      (runCycle st command confidence).2.length = 1) := by
  constructor
  · intro h
    simp [runCycle, commandGate, not_lt.mpr h]
  · intro h
    simp [runCycle, commandGate, h]

theorem C6_frame_witness :
    runCycle (initState ["a.mp3"]) Command.pop (35/100) = (initState ["a.mp3"], [])
  ∧ (runCycle (initState ["a.mp3"]) Command.pop (6/10)).2.length = 1 :=
  ⟨(C6_frame (initState ["a.mp3"]) Command.pop (35/100)).1
      (by norm_num [confidence_threshold]),
   (C6_frame (initState ["a.mp3"]) Command.pop (6/10)).2
      (by norm_num [confidence_threshold])⟩

/-- Claim C8: classifying "pop" with confidence 0.6 against threshold 0.4
dispatches exactly one invocation of `next_track`, and for a non-empty track
list `next_track` advances `current_track_index` by one modulo the track-list
length. -/
theorem C8_pop_next_track (st : MusicPlayer) (h : st.track_list ≠ []) :
    (runCycle st Command.pop (6/10)).2 = [Method.next_track]
  ∧ (runCycle st Command.pop (6/10)).1.current_track_index
      = (st.current_track_index + 1) % (st.track_list.length : Int) := by
  have hgate : (6/10 : ℚ) > confidence_threshold := by norm_num [confidence_threshold]
  constructor
  · simp [runCycle, commandGate, hgate, sound_mapping]
  · simp only [runCycle, commandGate, hgate, if_pos, sound_mapping, applyMethod]
    unfold MusicPlayer.next_track
    rw [if_neg h, play_index, stop_index]

theorem C8_pop_next_track_witness :
    (runCycle (initState ["a.mp3", "b.mp3", "c.mp3"]) Command.pop (6/10)).2
      = [Method.next_track]
  ∧ (runCycle (initState ["a.mp3", "b.mp3", "c.mp3"]) Command.pop
      (6/10)).1.current_track_index
      = ((initState ["a.mp3", "b.mp3", "c.mp3"]).current_track_index + 1)
          % (((initState ["a.mp3", "b.mp3", "c.mp3"]).track_list.length : Int)) :=
  C8_pop_next_track (initState ["a.mp3", "b.mp3", "c.mp3"]) (by simp [initState])

/-- Claim C10: the player volume starts at 0.7, `volume_up` clamps to
`min 1 (volume + 0.1)`, `volume_down` clamps to `max 0 (volume - 0.1)`, no
other method modifies the volume, and every reachable player state has volume
in the closed interval from 0 to 1. -/
theorem C10_volume_invariant (tracks : List String) (st : MusicPlayer)
    (m : Method) (h : Reachable st) :
    (initState tracks).volume = 7/10
  ∧ st.volume_up.volume = min 1 (st.volume + 1/10)
  ∧ st.volume_down.volume = max 0 (st.volume - 1/10)
  ∧ (m ≠ Method.volume_up → m ≠ Method.volume_down →
      (applyMethod st m).volume = st.volume)
  ∧ 0 ≤ st.volume ∧ st.volume ≤ 1 := by
  refine ⟨rfl, rfl, rfl, fun hup hdown => ?_, volume_bounds h⟩
  cases m with
  | play => exact play_volume st
  | pause => exact pause_volume st
  | stop => exact stop_volume st
  | next_track => exact next_track_volume st
  | previous_track => exact previous_track_volume st
  | volume_up => exact absurd rfl hup
  | volume_down => exact absurd rfl hdown

theorem C10_volume_invariant_witness :
    (initState []).volume = 7/10
  ∧ (initState []).volume_up.volume = min 1 ((initState []).volume + 1/10)
  ∧ (initState []).volume_down.volume = max 0 ((initState []).volume - 1/10)
  ∧ (Method.play ≠ Method.volume_up → Method.play ≠ Method.volume_down →
      (applyMethod (initState []) Method.play).volume = (initState []).volume)
  ∧ 0 ≤ (initState []).volume ∧ (initState []).volume ≤ 1 :=
  C10_volume_invariant [] (initState []) Method.play (Reachable.init [])

/-- Claim C1, counterexample: the training-time and inference-time extraction
pipelines do not apply identical processing steps — the training pipeline
additionally resamples/truncates on load and trims silence. -/
theorem C1_counterexample_steps_differ : trainingSteps ≠ inferenceSteps := by
  decide

/-- Claim C1, amended: the spectral-transform parameters (sample rate 22050,
13 coefficients, frame size 2048, hop 512, 128 mel filters) agree exactly
between the two pipelines, and on any window that the silence-trimming step
leaves unchanged the two extractions produce equal feature vectors. -/
theorem C1_shared_params_and_conditional_equivalence :
    trainingSteps.filter (fun s => isMfccStep s)
      = inferenceSteps.filter (fun s => isMfccStep s)
  ∧ ∀ (mfccMean trim : List ℚ → List ℚ) (y : List ℚ), trim y = y →
      trainingExtract mfccMean trim y = inferenceExtract mfccMean y := by
  refine ⟨by decide, fun mfccMean trim y h => ?_⟩
  rw [trainingExtract, inferenceExtract, trimWithFallback, h, ite_self]

theorem C1_shared_params_witness :
    trainingSteps.filter (fun s => isMfccStep s)
      = inferenceSteps.filter (fun s => isMfccStep s)
  ∧ trainingExtract id id [(1 : ℚ)] = inferenceExtract id [(1 : ℚ)] :=
  ⟨C1_shared_params_and_conditional_equivalence.1,
   C1_shared_params_and_conditional_equivalence.2 id id [(1 : ℚ)] rfl⟩

/-- Claim C3, counterexample: for a model whose predicted index does not carry
the largest probability — which the code nowhere rules out — the confidence
returned by `predict_command` is not the maximum of the distribution. -/
theorem C3_counterexample_not_max :
    (predict_command skewModel (List.replicate 13 0)).2.1
      ≠ distMax (predict_command skewModel (List.replicate 13 0)).2.2 := by
  intro hEq
  have h1 := le_distMax (predict_command skewModel (List.replicate 13 0)).2.2 1
  rw [← hEq] at h1
  norm_num [predict_command, skewModel] at h1

/-- Claim C3, amended: the confidence returned by `predict_command` is exactly
the distribution's entry at the predicted label, and it equals the maximum of
the distribution whenever the predicted label attains that maximum. -/
theorem C3_confidence_is_predicted_entry (model : Model) (features : List ℚ) :
    (predict_command model features).2.1
      = (predict_command model features).2.2 (predict_command model features).1
  ∧ ((∀ i, (predict_command model features).2.2 i
        ≤ (predict_command model features).2.2 (predict_command model features).1) →
      (predict_command model features).2.1
        = distMax (predict_command model features).2.2) := by
  exact ⟨rfl, fun h =>
    le_antisymm (le_distMax (model.predict_proba features) (model.predict features))
      (distMax_le (model.predict_proba features)
        (model.predict_proba features (model.predict features)) h)⟩

theorem C3_confidence_witness :
    (predict_command scenarioCModel (List.replicate 13 0)).2.1
      = (predict_command scenarioCModel (List.replicate 13 0)).2.2
          (predict_command scenarioCModel (List.replicate 13 0)).1
  ∧ (predict_command scenarioCModel (List.replicate 13 0)).2.1
      = distMax (predict_command scenarioCModel (List.replicate 13 0)).2.2 :=
  ⟨(C3_confidence_is_predicted_entry scenarioCModel (List.replicate 13 0)).1,
   (C3_confidence_is_predicted_entry scenarioCModel (List.replicate 13 0)).2
     (by intro i
         fin_cases i <;> simp +decide [predict_command, scenarioCModel] <;> norm_num)⟩

/-- Claim C4, counterexample: `record_audio` returns whatever blocks the
device delivered, with no truncation or padding — 43 full blocks of 1024
samples yield 44032 samples, not `duration * sample_rate = 44100`. -/
theorem C4_counterexample_length :
    (record_audio (List.replicate 43 (List.replicate 1024 (0 : ℚ)))).length
      ≠ duration * sample_rate := by
  rw [record_audio_length]
  simp only [List.map_replicate, List.length_replicate, List.sum_replicate,
    smul_eq_mul, duration, sample_rate]
  norm_num

/-- Claim C4, amended: `record_audio` returns the concatenation of all blocks
the callback delivered, so its length is the total number of delivered
samples; no truncation or padding to `duration * sample_rate` is applied. -/
theorem C4_concat_of_chunks (chunks : List (List ℚ)) :
    (record_audio chunks).length = (chunks.map List.length).sum :=
  record_audio_length chunks

/-- Claim C5: on every valid (non-empty) window, including the all-zero
window, inference-time feature extraction performs no failing numeric
operation (no division by zero, no mean over an empty frame axis) and returns
a feature vector of length exactly 13. -/
theorem C5_extract_total (frameCoeff : List ℚ → Nat → Nat → ℚ)
    (audio : List ℚ) (_valid : audio ≠ []) :
    ∃ v, extract_features frameCoeff audio = some v ∧ v.length = 13 := by
  obtain ⟨bs, hbs, hlen⟩ :=
    mapChecked_length
      (fun c => meanList
        ((List.range (nFrames (normalizePeak audio).length)).map
          (frameCoeff (normalizePeak audio) c)))
      (List.range n_mfcc)
      (fun c _ => by simp [meanList, nFrames])
  refine ⟨bs, ?_, by rw [hlen, List.length_range]; rfl⟩
  simp only [extract_features, normalizePeakChecked_eq]
  exact hbs

theorem C5_extract_total_witness :
    ([(0 : ℚ), 0, 0] ≠ ([] : List ℚ))
  ∧ ∃ v, extract_features (fun _ _ _ => 0) [(0 : ℚ), 0, 0] = some v
      ∧ v.length = 13 :=
  ⟨by simp, C5_extract_total (fun _ _ _ => 0) [(0 : ℚ), 0, 0] (by simp)⟩

/-- Claim C7: on a missing model artifact, `__init__` prints and returns
early without raising, so `main` constructs the recognizer without a model
and still enters the interactive loop — contradicting the claim that the
process exits before the loop; only an unloadable (raising) artifact keeps
the loop from being entered. -/
theorem C7_missing_model_still_enters_loop :
    (mainStartup false false).entersLoop = true
  ∧ (mainStartup false false).modelLoaded = false
  ∧ (mainStartup true true).entersLoop = false := by
  decide

/-- Claim C9: when the window's peak absolute amplitude is nonzero the window
is rescaled to peak exactly 1; on an all-zero window the scaling branch is
skipped and the window passes through unchanged; and the division performed
by the scaling branch never has a zero divisor. -/
theorem C9_normalization_guard (audio : List ℚ) :
    (peakAbs audio ≠ 0 → peakAbs (normalizePeak audio) = 1)
  ∧ ((∀ a ∈ audio, a = 0) → normalizePeak audio = audio)
  ∧ normalizePeakChecked audio = some (normalizePeak audio) := by
  refine ⟨fun h => ?_, fun h => ?_, normalizePeakChecked_eq audio⟩
  · have hpos : 0 < peakAbs audio :=
      lt_of_le_of_ne (peakAbs_nonneg audio) (Ne.symm h)
    rw [normalizePeak, if_pos hpos, peakAbs_map_div audio _ hpos, div_self h]
  · rw [normalizePeak,
      if_neg (by rw [peakAbs_eq_zero_of_allZero h]; exact lt_irrefl 0)]

theorem C9_normalization_guard_witness :
    peakAbs (normalizePeak [(1 : ℚ)/2, 0]) = 1
  ∧ normalizePeak [(0 : ℚ), 0] = [(0 : ℚ), 0] :=
  ⟨(C9_normalization_guard [(1 : ℚ)/2, 0]).1 (by norm_num [peakAbs]),
   (C9_normalization_guard [(0 : ℚ), 0]).2.1 (by simp)⟩

end VocalCommand
